import Mathlib

/-!
Shallow embedding of the RIOT semtech-loramac MAC actor
(src/pkg/semtech-loramac/contrib/semtech_loramac.c).

The external LoRaMac protocol engine is modelled as an oracle recording the
statuses its request primitives return and the joined flag its MIB reports.
Every call into the engine made by the embedded code is recorded in a list of
EngineCall values so that properties of the form the call path issues no
engine request can be stated.  Messages exchanged through the RIOT IPC
mailbox are modelled by the Msg inductive; messages sent to the waiting
caller thread are returned as explicit lists.
-/

namespace SemtechLoramac

/-- Operation state of the MAC actor: SEMTECH_LORAMAC_STATE_IDLE or
SEMTECH_LORAMAC_STATE_BUSY. -/
inductive OpState
  | idle
  | busy
deriving DecidableEq, Repr

/-- Return codes of the LoRaMac engine request primitives (LoRaMacStatus_t),
distinguished exactly as the code distinguishes them: OK, BUSY,
DUTYCYCLE_RESTRICTED, and every other code (handled by default branches)
collapsed into an indexed constructor. -/
inductive LoRaMacStatus
  | ok
  | busy
  | dutycycleRestricted
  | other (code : Nat)
deriving DecidableEq, Repr

/-- Event info status carried by confirm callbacks
(LoRaMacEventInfoStatus_t): the code only compares against
LORAMAC_EVENT_INFO_STATUS_OK, so non-OK statuses are an indexed error. -/
inductive EventInfoStatus
  | ok
  | error (code : Nat)
deriving DecidableEq, Repr

/-- Caller-visible outcome codes (the SEMTECH_LORAMAC_* uint8_t constants). -/
inductive Outcome
  | joinSucceeded
  | joinFailed
  | restricted
  | busy
  | notJoined
  | txScheduled
  | txDone
  | txCnfFailed
  | dataReceived
deriving DecidableEq, Repr

/-- MCPS service types (Mcps_t). -/
inductive McpsType
  | unconfirmed
  | confirmed
  | proprietary
  | multicast
deriving DecidableEq, Repr

/-- MLME service types as the code distinguishes them (Mlme_t): join,
link check, and everything else (handled by default branches). -/
inductive MlmeType
  | join
  | linkCheck
  | other (code : Nat)
deriving DecidableEq, Repr

/-- MIB attribute identifiers the code reads or writes (Mib_t). -/
inductive MibType
  | networkJoined
  | devAddr
  | nwkSKey
  | appSKey
deriving DecidableEq, Repr

/-- TX mode stored in mac.cnf: LORAMAC_TX_UNCNF or LORAMAC_TX_CNF. -/
inductive TxMode
  | uncnf
  | cnf
deriving DecidableEq, Repr

/-- Join type argument: LORAMAC_JOIN_OTAA or LORAMAC_JOIN_ABP. -/
inductive JoinType
  | otaa
  | abp
deriving DecidableEq, Repr

/-- Link-check result cache (the mac.link_chk struct). -/
structure LinkCheck where
  demod_margin : Nat
  nb_gateways : Nat
  available : Bool
deriving DecidableEq, Repr

/-- Received downlink data cache (the mac.rx_data struct). -/
structure RxData where
  payload : List Nat
  payload_len : Nat
  port : Nat
  ack : Bool
  multicast : Bool
  rssi : Int
  datarate : Nat
deriving DecidableEq, Repr

/-- The semtech_loramac_t context fields touched by the modelled code.  The
identity of the waiting caller thread (caller_pid) is modelled implicitly:
messages forwarded to it are returned as explicit result lists. -/
structure Mac where
  state : OpState
  port : Nat
  cnf : TxMode
  trials : Nat
  datarate : Nat
  link_chk : LinkCheck
  rx_data : RxData
deriving DecidableEq, Repr

/-- An MCPS transmit request as built by the code (the McpsReq_t fields it
assigns; a field the code leaves unassigned on a branch is none there). -/
structure McpsReq where
  type : McpsType
  fPort : Option Nat
  fBuffer : Option (List Nat)
  fBufferSize : Nat
  nbTrials : Option Nat
  datarate : Nat
deriving DecidableEq, Repr

/-- One call into the external LoRaMac protocol engine. -/
inductive EngineCall
  | mibGet (t : MibType)
  | mibSet (t : MibType)
  | mlmeRequest (t : MlmeType)
  | queryTxPossible (len : Nat)
  | mcpsRequest (req : McpsReq)
deriving DecidableEq, Repr

/-- The protocol engine as an oracle: the statuses its request primitives
return and the joined flag its MIB reports for one modelled call. -/
structure Engine where
  queryTxStatus : Nat → LoRaMacStatus
  mcpsStatus : LoRaMacStatus
  mlmeJoinStatus : LoRaMacStatus
  isNetworkJoined : Bool
  joinConfirmStatus : EventInfoStatus

/-- Fields of an MCPS indication the RX handler copies into mac.rx_data. -/
structure McpsIndicationData where
  buffer : List Nat
  bufferSize : Nat
  port : Nat
  ackReceived : Bool
  multicast : Bool
  rssi : Int
  rxDatarate : Nat
deriving DecidableEq, Repr

/-- A deferred command dispatched to the actor thread: the function tag plus
argument pair of semtech_loramac_call_t, for the two functions used. -/
inductive Cmd
  | join (ty : JoinType)
  | send (payload : Option (List Nat)) (len : Nat)
deriving DecidableEq, Repr

/-- Messages of the actor protocol (the MSG_TYPE_* constants), carrying the
content the handlers read. -/
inductive Msg
  | isr
  | rxTimeout
  | txTimeout
  | macTimeout
  | loramacCmd (c : Cmd)
  | loramacJoin (value : Outcome)
  | loramacLinkCheck (demodMargin nbGateways : Nat)
  | loramacTxDone
  | loramacTxSchedule
  | loramacTxCnfFailed
  | loramacRx (ind : McpsIndicationData)
  | unknown (t : Nat)
deriving DecidableEq, Repr

/-- MLME confirm data (the MlmeConfirm_t fields the code reads). -/
structure MlmeConfirm where
  mlmeRequest : MlmeType
  status : EventInfoStatus
  demodMargin : Nat
  nbGateways : Nat
deriving DecidableEq, Repr

/-- The MCPS request built by the frame-sending helper (source lines
97-127): when LoRaMacQueryTxPossible reports a non-OK status the request is
an empty unconfirmed frame flushing pending MAC commands (fPort and NbTrials
are left unassigned there), otherwise an unconfirmed or confirmed frame
according to mac.cnf. -/
def buildMcpsReq (eng : Engine) (mac : Mac) (payload : Option (List Nat))
    (len : Nat) : McpsReq :=
  if eng.queryTxStatus len ≠ LoRaMacStatus.ok then
    { type := McpsType.unconfirmed, fPort := none, fBuffer := none,
      fBufferSize := 0, nbTrials := none, datarate := mac.datarate }
  else
    match mac.cnf with
    | TxMode.uncnf =>
        { type := McpsType.unconfirmed, fPort := some mac.port,
          fBuffer := payload, fBufferSize := len, nbTrials := none,
          datarate := mac.datarate }
    | TxMode.cnf =>
        { type := McpsType.confirmed, fPort := some mac.port,
          fBuffer := payload, fBufferSize := len,
          nbTrials := some mac.trials, datarate := mac.datarate }

/-- Result of one execution of the frame-sending helper. -/
structure SendExec where
  req : McpsReq
  mac : Mac
  ret : Bool
  calls : List EngineCall
deriving Repr

/-- Model of the static helper _semtech_loramac_send (source lines 93-149):
builds the MCPS request, submits it with LoRaMacMcpsRequest, and on
LORAMAC_STATUS_OK returns false leaving the state untouched; on BUSY,
DUTYCYCLE_RESTRICTED or any other status it falls through to reset the state
to idle and returns true. -/
def semtech_loramac_send_frame (eng : Engine) (mac : Mac)
    (payload : Option (List Nat)) (len : Nat) : SendExec :=
  let req := buildMcpsReq eng mac payload len
  let calls := [EngineCall.queryTxPossible len, EngineCall.mcpsRequest req]
  match eng.mcpsStatus with
  | LoRaMacStatus.ok => { req := req, mac := mac, ret := false, calls := calls }
  | _ => { req := req, mac := { mac with state := OpState.idle },
           ret := true, calls := calls }

/-- Model of mcps_confirm (source lines 152-191): the messages it sends to
the actor thread for a given confirm status and request type.  With OK
status only an unconfirmed request produces a message (TX done); confirmed,
proprietary and unknown types only log.  Any non-OK status produces the TX
confirm failed message. -/
def mcps_confirm (status : EventInfoStatus) (req : McpsType) : List Msg :=
  if status = EventInfoStatus.ok then
    match req with
    | McpsType.unconfirmed => [Msg.loramacTxDone]
    | _ => []
  else
    [Msg.loramacTxCnfFailed]

/-- Model of mcps_indication (source lines 194-249): nothing on a non-OK
status; otherwise a TX schedule message when the network flags pending data,
followed by an RX message carrying the indication when data was received and
a TX done message otherwise. -/
def mcps_indication (status : EventInfoStatus) (framePending : Bool)
    (rxData : Bool) (ind : McpsIndicationData) : List Msg :=
  if status ≠ EventInfoStatus.ok then []
  else
    (if framePending then [Msg.loramacTxSchedule] else []) ++
    [if rxData then Msg.loramacRx ind else Msg.loramacTxDone]

/-- Model of mlme_confirm (source lines 269-304): a join confirm always
produces a join message whose value is SUCCEEDED for an OK status and FAILED
otherwise; a link-check confirm produces the link-check message (carrying
the confirm data) only for an OK status.  In the source the OK link-check
branch lacks a break and falls through into the adjacent default branch,
which only breaks, so the net effect is the single message send modelled
here; other service types hit the default branch directly. -/
def mlme_confirm (c : MlmeConfirm) : List Msg :=
  match c.mlmeRequest with
  | MlmeType.join =>
      if c.status = EventInfoStatus.ok then
        [Msg.loramacJoin Outcome.joinSucceeded]
      else
        [Msg.loramacJoin Outcome.joinFailed]
  | MlmeType.linkCheck =>
      if c.status = EventInfoStatus.ok then
        [Msg.loramacLinkCheck c.demodMargin c.nbGateways]
      else []
  | MlmeType.other _ => []

/-- Result of running a join handler inside the actor thread. -/
structure JoinExec where
  calls : List EngineCall
  msgs : List Msg
deriving Repr

/-- Model of _join_otaa (source lines 334-379): clears the MIB joined flag,
issues the MLME join request, and on LORAMAC_STATUS_OK returns leaving the
confirm callback to report the result later; on DUTYCYCLE_RESTRICTED it
sends a join message with value RESTRICTED, on any other status one with
value JOIN_FAILED. -/
def join_otaa (eng : Engine) : JoinExec :=
  let calls := [EngineCall.mibSet MibType.networkJoined,
                EngineCall.mlmeRequest MlmeType.join]
  match eng.mlmeJoinStatus with
  | LoRaMacStatus.ok => { calls := calls, msgs := [] }
  | LoRaMacStatus.dutycycleRestricted =>
      { calls := calls, msgs := [Msg.loramacJoin Outcome.restricted] }
  | _ => { calls := calls, msgs := [Msg.loramacJoin Outcome.joinFailed] }

/-- Model of _join_abp (source lines 381-415): programs device address and
session keys into the engine MIB, marks the network joined, and switches the
state back to idle before returning. -/
def join_abp (mac : Mac) : Mac × List EngineCall :=
  ({ mac with state := OpState.idle },
   [EngineCall.mibSet MibType.networkJoined,
    EngineCall.mibSet MibType.devAddr,
    EngineCall.mibSet MibType.nwkSKey,
    EngineCall.mibSet MibType.appSKey,
    EngineCall.mibSet MibType.networkJoined])

/-- Output of one dispatch iteration of the actor event loop: the updated
context and the messages sent to the waiting caller thread. -/
structure StepResult where
  mac : Mac
  callerMsgs : List Msg
deriving Repr

/-- Model of one iteration of _semtech_loramac_event_loop (source lines
526-653) on a dequeued message.  The ISR, RX/TX timeout and MAC timeout
branches hand control to the radio driver or an engine timer callback and
mutate no context field of this layer; they leave the modelled state
unchanged. -/
def event_loop_step (eng : Engine) (mac : Mac) (m : Msg) : StepResult :=
  match m with
  | Msg.loramacCmd c =>
      let mac1 := { mac with state := OpState.busy }
      match c with
      | Cmd.join JoinType.otaa => { mac := mac1, callerMsgs := [] }
      | Cmd.join JoinType.abp =>
          { mac := (join_abp mac1).1, callerMsgs := [] }
      | Cmd.send p l =>
          { mac := (semtech_loramac_send_frame eng mac1 p l).mac,
            callerMsgs := [] }
  | Msg.loramacJoin v =>
      { mac := { mac with state := OpState.idle },
        callerMsgs := [Msg.loramacJoin v] }
  | Msg.loramacLinkCheck dm ng =>
      { mac := { mac with link_chk :=
          { demod_margin := dm, nb_gateways := ng, available := true } },
        callerMsgs := [] }
  | Msg.loramacTxDone =>
      { mac := { mac with state := OpState.idle },
        callerMsgs := [Msg.loramacTxDone] }
  | Msg.loramacTxSchedule =>
      let prev := mac.port
      let mac1 := { mac with port := 0 }
      let r := semtech_loramac_send_frame eng mac1 none 0
      { mac := { r.mac with port := prev }, callerMsgs := [] }
  | Msg.loramacTxCnfFailed =>
      { mac := { mac with state := OpState.idle },
        callerMsgs := [Msg.loramacTxCnfFailed] }
  | Msg.loramacRx ind =>
      { mac := { mac with
                 state := OpState.idle,
                 rx_data := { payload := ind.buffer,
                              payload_len := ind.bufferSize,
                              port := ind.port, ack := ind.ackReceived,
                              multicast := ind.multicast, rssi := ind.rssi,
                              datarate := ind.rxDatarate } },
        callerMsgs := [Msg.loramacRx ind] }
  | _ => { mac := mac, callerMsgs := [] }

/-- The value carried by the join message the caller blocks for.  In every
modelled join flow the pending list is exactly one join message; the
fallback value is never reached there. -/
def joinMsgValue (msgs : List Msg) : Outcome :=
  match msgs with
  | Msg.loramacJoin v :: _ => v
  | _ => Outcome.joinFailed

/-- Result of a complete caller-side operation: the returned code, the final
context, the engine calls made on the call path, and the successive values
assigned to mac.state during the call (in program order, initial value not
listed). -/
structure CallResult where
  outcome : Outcome
  mac : Mac
  calls : List EngineCall
  stateTrace : List OpState
deriving Repr

/-- Model of semtech_loramac_join (source lines 675-698) composed with the
actor-thread execution it triggers.  A non-idle state returns BUSY at once
with no engine call.  Otherwise the dispatched command handler (source line
561) sets the state to busy and runs the join handler; for ABP the call
returns JOIN_SUCCEEDED as soon as the command is replied to, for OTAA the
caller blocks until the actor forwards the join outcome message - sent
directly by _join_otaa when the engine rejects the request, or by
mlme_confirm when the engine delivers the join confirm - and the event
loop, then the caller itself (source line 692), reset the state to idle. -/
def semtech_loramac_join (eng : Engine) (mac : Mac) (ty : JoinType) :
    CallResult :=
  if mac.state ≠ OpState.idle then
    { outcome := Outcome.busy, mac := mac, calls := [], stateTrace := [] }
  else
    let macBusy := { mac with state := OpState.busy }
    match ty with
    | JoinType.abp =>
        let (mac2, calls) := join_abp macBusy
        { outcome := Outcome.joinSucceeded, mac := mac2, calls := calls,
          stateTrace := [OpState.busy, OpState.idle] }
    | JoinType.otaa =>
        let je := join_otaa eng
        let pending :=
          match eng.mlmeJoinStatus with
          | LoRaMacStatus.ok =>
              mlme_confirm { mlmeRequest := MlmeType.join,
                             status := eng.joinConfirmStatus,
                             demodMargin := 0, nbGateways := 0 }
          | _ => je.msgs
        let v := joinMsgValue pending
        let sr := event_loop_step eng macBusy (Msg.loramacJoin v)
        { outcome := v, mac := { sr.mac with state := OpState.idle },
          calls := je.calls,
          stateTrace := [OpState.busy, OpState.idle, OpState.idle] }

/-- Model of semtech_loramac_request_link_check (source lines 700-708):
clears the availability flag and issues the MLME link-check request. -/
def semtech_loramac_request_link_check (mac : Mac) :
    Mac × List EngineCall :=
  ({ mac with link_chk := { mac.link_chk with available := false } },
   [EngineCall.mlmeRequest MlmeType.linkCheck])

/-- Model of semtech_loramac_send (source lines 710-737) composed with the
actor-thread execution of the dispatched send command.  It first reads the
joined flag from the engine MIB and clears the link-check availability flag
(source lines 712-718), then returns NOT_JOINED when the network is not
joined, BUSY when the state is not idle; otherwise it dispatches the send
command - the actor sets the state to busy and runs the frame-sending
helper - and returns TX_SCHEDULED unconditionally. -/
def semtech_loramac_send (eng : Engine) (mac : Mac)
    (data : Option (List Nat)) (len : Nat) : CallResult :=
  let mac0 := { mac with link_chk := { mac.link_chk with available := false } }
  let calls0 := [EngineCall.mibGet MibType.networkJoined]
  if ¬ eng.isNetworkJoined then
    { outcome := Outcome.notJoined, mac := mac0, calls := calls0,
      stateTrace := [] }
  else if mac0.state ≠ OpState.idle then
    { outcome := Outcome.busy, mac := mac0, calls := calls0,
      stateTrace := [] }
  else
    let macBusy := { mac0 with state := OpState.busy }
    let r := semtech_loramac_send_frame eng macBusy data len
    { outcome := Outcome.txScheduled, mac := r.mac,
      calls := calls0 ++ r.calls,
      stateTrace := OpState.busy :: (if r.ret then [OpState.idle] else []) }

/-- Model of semtech_loramac_recv (source lines 739-762): the outcome
computed from the message that unblocks the caller - RX data maps to
DATA_RECEIVED, a failed TX confirm to TX_CNF_FAILED, and every other
message type to TX_DONE through the default branch. -/
def semtech_loramac_recv (m : Msg) : Outcome :=
  match m with
  | Msg.loramacRx _ => Outcome.dataReceived
  | Msg.loramacTxCnfFailed => Outcome.txCnfFailed
  | _ => Outcome.txDone

end SemtechLoramac

namespace SemtechLoramac

/-- A concrete baseline context (idle, unconfirmed mode, an available
link-check result) for concrete evaluations. -/
def macIdle : Mac :=
  { state := OpState.idle, port := 2, cnf := TxMode.uncnf, trials := 5,
    datarate := 3,
    link_chk := { demod_margin := 7, nb_gateways := 1, available := true },
    rx_data := { payload := [], payload_len := 0, port := 0, ack := false,
                 multicast := false, rssi := 0, datarate := 0 } }

/-- The concrete baseline context with a busy state. -/
def macBusy : Mac := { macIdle with state := OpState.busy }

/-- The concrete baseline context with the link-check cache unavailable. -/
def macNoLink : Mac :=
  { macIdle with
    link_chk := { demod_margin := 0, nb_gateways := 0, available := false } }

/-- A concrete engine oracle: joined network, every primitive succeeding. -/
def engJoined : Engine :=
  { queryTxStatus := fun _ => LoRaMacStatus.ok,
    mcpsStatus := LoRaMacStatus.ok,
    mlmeJoinStatus := LoRaMacStatus.ok,
    isNetworkJoined := true,
    joinConfirmStatus := EventInfoStatus.ok }

/-- The concrete engine oracle with the network not joined. -/
def engNotJoined : Engine := { engJoined with isNetworkJoined := false }

/-- The concrete engine oracle whose queued-transmission query reports the
request cannot be queued as-is. -/
def engNoRoom : Engine :=
  { engJoined with queryTxStatus := fun _ => LoRaMacStatus.busy }

/-- The concrete engine oracle rejecting MCPS transmit requests as busy. -/
def engReject : Engine := { engJoined with mcpsStatus := LoRaMacStatus.busy }

end SemtechLoramac

namespace SemtechLoramac

/-- C5: for every transmit confirm callback, an OK status with an
unconfirmed request emits exactly the TX done message; any non-OK status
emits exactly the TX confirm failed message; an OK status with a confirmed
or proprietary request emits no message. -/
theorem c5_mcps_confirm (status : EventInfoStatus) (req : McpsType) :
    ((status = EventInfoStatus.ok ∧ req = McpsType.unconfirmed) →
      mcps_confirm status req = [Msg.loramacTxDone]) ∧
    (status ≠ EventInfoStatus.ok →
      mcps_confirm status req = [Msg.loramacTxCnfFailed]) ∧
    ((status = EventInfoStatus.ok ∧
        (req = McpsType.confirmed ∨ req = McpsType.proprietary)) →
      mcps_confirm status req = []) := by
  refine ⟨?_, ?_, ?_⟩
  · rintro ⟨h1, h2⟩
    simp [mcps_confirm, h1, h2]
  · intro h1
    simp [mcps_confirm, h1]
  · rintro ⟨h1, h2 | h2⟩ <;> simp [mcps_confirm, h1, h2]

/-- C5 witness: the transmit-confirm theorem evaluated at concrete statuses
and request types. -/
theorem c5_mcps_confirm_witness :
    mcps_confirm EventInfoStatus.ok McpsType.unconfirmed =
      [Msg.loramacTxDone] ∧
    mcps_confirm (EventInfoStatus.error 1) McpsType.unconfirmed =
      [Msg.loramacTxCnfFailed] ∧
    mcps_confirm EventInfoStatus.ok McpsType.confirmed = [] :=
  ⟨(c5_mcps_confirm EventInfoStatus.ok McpsType.unconfirmed).1 ⟨rfl, rfl⟩,
   (c5_mcps_confirm (EventInfoStatus.error 1) McpsType.unconfirmed).2.1
     (by decide),
   (c5_mcps_confirm EventInfoStatus.ok McpsType.confirmed).2.2
     ⟨rfl, Or.inl rfl⟩⟩

/-- C6: when the engine queued-transmission query reports the request cannot
be queued as-is, the request built and actually submitted to the engine is
an unconfirmed request with null buffer, size zero and the current datarate,
in place of the caller payload. -/
theorem c6_flush_request (eng : Engine) (mac : Mac)
    (payload : Option (List Nat)) (len : Nat)
    (h : eng.queryTxStatus len ≠ LoRaMacStatus.ok) :
    (semtech_loramac_send_frame eng mac payload len).req =
      { type := McpsType.unconfirmed, fPort := none, fBuffer := none,
        fBufferSize := 0, nbTrials := none, datarate := mac.datarate } ∧
    EngineCall.mcpsRequest
        { type := McpsType.unconfirmed, fPort := none, fBuffer := none,
          fBufferSize := 0, nbTrials := none, datarate := mac.datarate } ∈
      (semtech_loramac_send_frame eng mac payload len).calls := by
  cases hm : eng.mcpsStatus <;>
    simp [semtech_loramac_send_frame, buildMcpsReq, hm, h]

/-- C6 witness: the flush-substitution theorem evaluated at a concrete
engine whose query reports no room. -/
theorem c6_flush_request_witness :
    (semtech_loramac_send_frame engNoRoom macIdle (some [1, 2, 3]) 3).req =
      { type := McpsType.unconfirmed, fPort := none, fBuffer := none,
        fBufferSize := 0, nbTrials := none, datarate := macIdle.datarate } ∧
    EngineCall.mcpsRequest
        { type := McpsType.unconfirmed, fPort := none, fBuffer := none,
          fBufferSize := 0, nbTrials := none,
          datarate := macIdle.datarate } ∈
      (semtech_loramac_send_frame engNoRoom macIdle (some [1, 2, 3]) 3).calls :=
  c6_flush_request engNoRoom macIdle (some [1, 2, 3]) 3 (by decide)

/-- C9: the blocking receive maps an RX data message to DATA_RECEIVED, a TX
confirm failed message to TX_CNF_FAILED, and every message of any other
type - a join result message included - to TX_DONE; its result is always
one of exactly these three outcomes. -/
theorem c9_recv (m : Msg) (ind : McpsIndicationData) (v : Outcome) :
    semtech_loramac_recv (Msg.loramacRx ind) = Outcome.dataReceived ∧
    semtech_loramac_recv Msg.loramacTxCnfFailed = Outcome.txCnfFailed ∧
    semtech_loramac_recv (Msg.loramacJoin v) = Outcome.txDone ∧
    ((∀ i : McpsIndicationData, m ≠ Msg.loramacRx i) →
      m ≠ Msg.loramacTxCnfFailed →
      semtech_loramac_recv m = Outcome.txDone) ∧
    (semtech_loramac_recv m = Outcome.dataReceived ∨
     semtech_loramac_recv m = Outcome.txCnfFailed ∨
     semtech_loramac_recv m = Outcome.txDone) := by
  refine ⟨rfl, rfl, rfl, ?_, ?_⟩
  · intro h1 h2
    cases m
    case loramacRx i => exact absurd rfl (h1 i)
    case loramacTxCnfFailed => exact absurd rfl h2
    all_goals rfl
  · cases m <;> simp [semtech_loramac_recv]

/-- C9 witness: the receive-mapping theorem evaluated at concrete messages,
the hypotheses of the default-branch clause discharged at the ISR
message. -/
theorem c9_recv_witness :
    semtech_loramac_recv Msg.isr = Outcome.txDone ∧
    semtech_loramac_recv (Msg.loramacJoin Outcome.joinSucceeded) =
      Outcome.txDone :=
  ⟨(c9_recv Msg.isr ⟨[], 0, 0, false, false, 0, 0⟩
      Outcome.joinSucceeded).2.2.2.1
      (fun _ h => Msg.noConfusion h) (fun h => Msg.noConfusion h),
   (c9_recv Msg.isr ⟨[], 0, 0, false, false, 0, 0⟩
      Outcome.joinSucceeded).2.2.1⟩

end SemtechLoramac

namespace SemtechLoramac

/-- C1 counterexample: a send issued at this concrete input while the state
is busy and the network is not joined returns NOT_JOINED rather than BUSY
(the code checks the joined flag before the busy guard), and its call path
invokes an engine primitive (the MIB network-joined query), so the claim
fails as stated. -/
theorem c1_counterexample :
    macBusy.state ≠ OpState.idle ∧
    (semtech_loramac_send engNotJoined macBusy none 0).outcome =
      Outcome.notJoined ∧
    (semtech_loramac_send engNotJoined macBusy none 0).outcome ≠
      Outcome.busy ∧
    (semtech_loramac_send engNotJoined macBusy none 0).calls ≠ [] := by
  decide

/-- C1 (amended): while the state is not idle, join returns BUSY immediately
with no engine call; send first invokes the engine MIB network-joined query
and then returns NOT_JOINED when the network is not joined and BUSY
otherwise, and in either case that query is the only engine primitive on
the call path: no MLME or MCPS request is issued. -/
theorem c1_busy_guard (eng : Engine) (mac : Mac) (ty : JoinType)
    (data : Option (List Nat)) (len : Nat) (h : mac.state ≠ OpState.idle) :
    (semtech_loramac_join eng mac ty).outcome = Outcome.busy ∧
    (semtech_loramac_join eng mac ty).calls = [] ∧
    (semtech_loramac_send eng mac data len).outcome =
      (if eng.isNetworkJoined then Outcome.busy else Outcome.notJoined) ∧
    (semtech_loramac_send eng mac data len).calls =
      [EngineCall.mibGet MibType.networkJoined] := by
  refine ⟨?_, ?_, ?_, ?_⟩ <;>
    cases hj : eng.isNetworkJoined <;>
      simp [semtech_loramac_join, semtech_loramac_send, h, hj]

/-- C1 witness: the amended busy-guard theorem instantiated at the concrete
busy context with the network not joined. -/
theorem c1_busy_guard_witness :
    (semtech_loramac_join engNotJoined macBusy JoinType.otaa).outcome =
      Outcome.busy ∧
    (semtech_loramac_join engNotJoined macBusy JoinType.otaa).calls = [] ∧
    (semtech_loramac_send engNotJoined macBusy none 0).outcome =
      (if engNotJoined.isNetworkJoined then Outcome.busy
       else Outcome.notJoined) ∧
    (semtech_loramac_send engNotJoined macBusy none 0).calls =
      [EngineCall.mibGet MibType.networkJoined] :=
  c1_busy_guard engNotJoined macBusy JoinType.otaa none 0 (by decide)

/-- C2: for an OTAA join issued while idle, an engine join confirm with OK
status yields JOIN_SUCCEEDED, a confirm with any non-OK status yields
JOIN_FAILED, an engine request rejected at request time with the duty-cycle
code yields RESTRICTED, and in every case the state is idle after the
result is delivered. -/
theorem c2_otaa_join (eng : Engine) (mac : Mac)
    (h : mac.state = OpState.idle) :
    ((eng.mlmeJoinStatus = LoRaMacStatus.ok ∧
        eng.joinConfirmStatus = EventInfoStatus.ok) →
      (semtech_loramac_join eng mac JoinType.otaa).outcome =
        Outcome.joinSucceeded) ∧
    ((eng.mlmeJoinStatus = LoRaMacStatus.ok ∧
        eng.joinConfirmStatus ≠ EventInfoStatus.ok) →
      (semtech_loramac_join eng mac JoinType.otaa).outcome =
        Outcome.joinFailed) ∧
    (eng.mlmeJoinStatus = LoRaMacStatus.dutycycleRestricted →
      (semtech_loramac_join eng mac JoinType.otaa).outcome =
        Outcome.restricted) ∧
    (semtech_loramac_join eng mac JoinType.otaa).mac.state =
      OpState.idle := by
  refine ⟨?_, ?_, ?_, ?_⟩
  · rintro ⟨h1, h2⟩
    simp [semtech_loramac_join, h, h1, h2, join_otaa, mlme_confirm,
          joinMsgValue, event_loop_step]
  · rintro ⟨h1, h2⟩
    simp [semtech_loramac_join, h, h1, h2, join_otaa, mlme_confirm,
          joinMsgValue, event_loop_step]
  · intro h1
    simp [semtech_loramac_join, h, h1, join_otaa, mlme_confirm,
          joinMsgValue, event_loop_step]
  · cases hm : eng.mlmeJoinStatus <;>
      simp [semtech_loramac_join, h, hm, join_otaa, mlme_confirm,
            joinMsgValue, event_loop_step]

/-- C2 witness: the OTAA join theorem instantiated at the concrete idle
context with an engine whose join request and join confirm both succeed. -/
theorem c2_otaa_join_witness :
    (semtech_loramac_join engJoined macIdle JoinType.otaa).outcome =
      Outcome.joinSucceeded ∧
    (semtech_loramac_join engJoined macIdle JoinType.otaa).mac.state =
      OpState.idle :=
  ⟨(c2_otaa_join engJoined macIdle rfl).1 ⟨rfl, rfl⟩,
   (c2_otaa_join engJoined macIdle rfl).2.2.2⟩

/-- C3 counterexample: at this concrete idle context an ABP join proceeds
normally and returns JOIN_SUCCEEDED, yet the state takes the busy value
during its execution - the command dispatcher (source line 561) writes busy
before the ABP handler runs - refuting the claim that the state never takes
the busy value during an ABP join. -/
theorem c3_counterexample :
    (semtech_loramac_join engJoined macIdle JoinType.abp).outcome =
      Outcome.joinSucceeded ∧
    OpState.busy ∈
      (semtech_loramac_join engJoined macIdle JoinType.abp).stateTrace := by
  decide

/-- C3 (amended): every ABP join issued while the state is idle returns
JOIN_SUCCEEDED synchronously from the join call, and the state is idle
again when the call returns; the state does however transiently take the
busy value: the successive state writes during the call are exactly busy
(written by the command dispatcher) followed by idle (restored by the ABP
handler before the command reply). -/
theorem c3_abp_join (eng : Engine) (mac : Mac)
    (h : mac.state = OpState.idle) :
    (semtech_loramac_join eng mac JoinType.abp).outcome =
      Outcome.joinSucceeded ∧
    (semtech_loramac_join eng mac JoinType.abp).mac.state = OpState.idle ∧
    (semtech_loramac_join eng mac JoinType.abp).stateTrace =
      [OpState.busy, OpState.idle] := by
  simp [semtech_loramac_join, h, join_abp]

/-- C3 witness: the amended ABP join theorem instantiated at the concrete
idle context. -/
theorem c3_abp_join_witness :
    (semtech_loramac_join engJoined macIdle JoinType.abp).outcome =
      Outcome.joinSucceeded ∧
    (semtech_loramac_join engJoined macIdle JoinType.abp).mac.state =
      OpState.idle ∧
    (semtech_loramac_join engJoined macIdle JoinType.abp).stateTrace =
      [OpState.busy, OpState.idle] :=
  c3_abp_join engJoined macIdle rfl

/-- C4 counterexample: at this concrete input a send with the network not
joined does return NOT_JOINED, but its call path is not free of engine
calls: it invokes the MIB network-joined query, so the claim fails as
stated. -/
theorem c4_counterexample :
    (semtech_loramac_send engNotJoined macIdle none 0).outcome =
      Outcome.notJoined ∧
    (semtech_loramac_send engNotJoined macIdle none 0).calls ≠ [] := by
  decide

/-- C4 (amended): every send issued while the network is not joined returns
NOT_JOINED, and the only engine primitive invoked on its call path is the
MIB network-joined query used to read the joined flag: no transmit (MCPS)
or management (MLME) request is issued. -/
theorem c4_send_not_joined (eng : Engine) (mac : Mac)
    (data : Option (List Nat)) (len : Nat)
    (h : eng.isNetworkJoined = false) :
    (semtech_loramac_send eng mac data len).outcome = Outcome.notJoined ∧
    (semtech_loramac_send eng mac data len).calls =
      [EngineCall.mibGet MibType.networkJoined] := by
  simp [semtech_loramac_send, h]

/-- C4 witness: the amended not-joined theorem instantiated at the concrete
idle context with the network not joined. -/
theorem c4_send_not_joined_witness :
    (semtech_loramac_send engNotJoined macIdle none 0).outcome =
      Outcome.notJoined ∧
    (semtech_loramac_send engNotJoined macIdle none 0).calls =
      [EngineCall.mibGet MibType.networkJoined] :=
  c4_send_not_joined engNotJoined macIdle none 0 rfl

end SemtechLoramac

namespace SemtechLoramac

/-- C7: when the engine rejects the transmit request with any non-OK status
(busy, duty-cycle restricted or other), the frame-sending helper resets the
state to idle before returning (and reports the failure by returning true),
while the caller-side send - issued with the network joined and the state
idle - still returns TX_SCHEDULED: the rejection is not surfaced through
the send return value. -/
theorem c7_engine_rejection (eng : Engine) (mac : Mac)
    (payload : Option (List Nat)) (len : Nat)
    (h : eng.mcpsStatus ≠ LoRaMacStatus.ok)
    (hj : eng.isNetworkJoined = true) (hs : mac.state = OpState.idle) :
    (semtech_loramac_send_frame eng mac payload len).mac.state =
      OpState.idle ∧
    (semtech_loramac_send_frame eng mac payload len).ret = true ∧
    (semtech_loramac_send eng mac payload len).outcome =
      Outcome.txScheduled := by
  refine ⟨?_, ?_, ?_⟩
  · cases hm : eng.mcpsStatus <;>
      simp_all [semtech_loramac_send_frame]
  · cases hm : eng.mcpsStatus <;>
      simp_all [semtech_loramac_send_frame]
  · simp [semtech_loramac_send, hj, hs]

/-- C7 witness: the rejection theorem instantiated at the concrete idle
context with an engine rejecting the MCPS request as busy. -/
theorem c7_engine_rejection_witness :
    (semtech_loramac_send_frame engReject macIdle (some [1]) 1).mac.state =
      OpState.idle ∧
    (semtech_loramac_send_frame engReject macIdle (some [1]) 1).ret =
      true ∧
    (semtech_loramac_send engReject macIdle (some [1]) 1).outcome =
      Outcome.txScheduled :=
  c7_engine_rejection engReject macIdle (some [1]) 1 (by decide) rfl rfl

/-- C8: the availability flag of the link-check cache becomes true only as
a consequence of a link-check confirm with OK status: a non-OK link-check
confirm emits no message; an OK one emits the link-check message carrying
the demodulation margin and the gateway count; and a dispatch step of the
event loop can raise the flag from false only on a link-check message,
which also stores the carried margin and gateway count. -/
theorem c8_link_check_availability (eng : Engine) (mac : Mac) (m : Msg)
    (c : MlmeConfirm) :
    ((c.mlmeRequest = MlmeType.linkCheck ∧
        c.status ≠ EventInfoStatus.ok) →
      mlme_confirm c = []) ∧
    ((c.mlmeRequest = MlmeType.linkCheck ∧
        c.status = EventInfoStatus.ok) →
      mlme_confirm c = [Msg.loramacLinkCheck c.demodMargin c.nbGateways]) ∧
    (mac.link_chk.available = false →
      (event_loop_step eng mac m).mac.link_chk.available = true →
      ∃ dm ng, m = Msg.loramacLinkCheck dm ng ∧
        (event_loop_step eng mac m).mac.link_chk =
          { demod_margin := dm, nb_gateways := ng, available := true }) := by
  refine ⟨?_, ?_, ?_⟩
  · rintro ⟨h1, h2⟩
    simp [mlme_confirm, h1, h2]
  · rintro ⟨h1, h2⟩
    simp [mlme_confirm, h1, h2]
  · intro h0 h1
    cases m
    case loramacLinkCheck dm ng =>
      exact ⟨dm, ng, rfl, by simp [event_loop_step]⟩
    case loramacCmd c =>
      exfalso
      cases c with
      | join ty =>
          cases ty <;> simp [event_loop_step, join_abp, h0] at h1
      | send p l =>
          cases hm : eng.mcpsStatus <;>
            simp [event_loop_step, semtech_loramac_send_frame, hm, h0] at h1
    case loramacTxSchedule =>
      exfalso
      cases hm : eng.mcpsStatus <;>
        simp [event_loop_step, semtech_loramac_send_frame, hm, h0] at h1
    all_goals (exfalso; simp [event_loop_step, h0] at h1)

/-- C8 witness: the link-check availability theorem evaluated at concrete
confirms (one failed, one OK) and at a concrete dispatch step raising the
flag. -/
theorem c8_link_check_availability_witness :
    mlme_confirm { mlmeRequest := MlmeType.linkCheck,
                   status := EventInfoStatus.error 1,
                   demodMargin := 10, nbGateways := 2 } = [] ∧
    mlme_confirm { mlmeRequest := MlmeType.linkCheck,
                   status := EventInfoStatus.ok,
                   demodMargin := 10, nbGateways := 2 } =
      [Msg.loramacLinkCheck 10 2] ∧
    ∃ dm ng, Msg.loramacLinkCheck 10 2 = Msg.loramacLinkCheck dm ng ∧
      (event_loop_step engJoined macNoLink
          (Msg.loramacLinkCheck 10 2)).mac.link_chk =
        { demod_margin := dm, nb_gateways := ng, available := true } :=
  ⟨(c8_link_check_availability engJoined macNoLink
      (Msg.loramacLinkCheck 10 2)
      { mlmeRequest := MlmeType.linkCheck,
        status := EventInfoStatus.error 1,
        demodMargin := 10, nbGateways := 2 }).1 ⟨rfl, by decide⟩,
   (c8_link_check_availability engJoined macNoLink
      (Msg.loramacLinkCheck 10 2)
      { mlmeRequest := MlmeType.linkCheck,
        status := EventInfoStatus.ok,
        demodMargin := 10, nbGateways := 2 }).2.1 ⟨rfl, rfl⟩,
   (c8_link_check_availability engJoined macNoLink
      (Msg.loramacLinkCheck 10 2)
      { mlmeRequest := MlmeType.linkCheck,
        status := EventInfoStatus.ok,
        demodMargin := 10, nbGateways := 2 }).2.2 rfl (by decide)⟩

/-- In every execution path of the caller-side send the returned context
has the link-check availability flag cleared: the clear happens before the
joined and busy checks and no later step of the call sets it again. -/
theorem send_clears_available (eng : Engine) (mac : Mac)
    (data : Option (List Nat)) (len : Nat) :
    (semtech_loramac_send eng mac data len).mac.link_chk.available =
      false := by
  cases hj : eng.isNetworkJoined <;>
    cases hs : mac.state <;>
      cases hm : eng.mcpsStatus <;>
        simp [semtech_loramac_send, semtech_loramac_send_frame, hj, hs, hm]

/-- C10: every send clears the link-check availability flag before the
joined and busy checks, so whatever the outcome - NOT_JOINED and BUSY
included, where no transmission is performed - the flag is false in the
returned context: a previously available link-check result is
invalidated. -/
theorem c10_send_invalidates_link_check (eng : Engine) (mac : Mac)
    (data : Option (List Nat)) (len : Nat) :
    (semtech_loramac_send eng mac data len).mac.link_chk.available =
      false ∧
    (eng.isNetworkJoined = false →
      (semtech_loramac_send eng mac data len).outcome =
        Outcome.notJoined) ∧
    ((eng.isNetworkJoined = true ∧ mac.state = OpState.busy) →
      (semtech_loramac_send eng mac data len).outcome = Outcome.busy) := by
  refine ⟨send_clears_available eng mac data len, ?_, ?_⟩
  · intro hj
    simp [semtech_loramac_send, hj]
  · rintro ⟨hj, hs⟩
    simp [semtech_loramac_send, hj, hs]

/-- C10 witness: the invalidation theorem instantiated at the concrete busy
context (whose link-check result is available) with a joined network: the
send returns BUSY, performing no transmission, and the availability flag is
false afterwards. -/
theorem c10_send_invalidates_link_check_witness :
    (semtech_loramac_send engJoined macBusy none 0).mac.link_chk.available =
      false ∧
    (semtech_loramac_send engJoined macBusy none 0).outcome =
      Outcome.busy :=
  ⟨(c10_send_invalidates_link_check engJoined macBusy none 0).1,
   (c10_send_invalidates_link_check engJoined macBusy none 0).2.2
     ⟨rfl, rfl⟩⟩

end SemtechLoramac
